/- Verification of the Amazon Q Business custom connector framework core:
   a shallow embedding of the DynamoDB DAOs (custom_connectors_dao.py,
   custom_connector_jobs_dao.py), the job orchestrator and job status
   handlers, and the builder-kit sync/checksum/batching logic
   (custom_connector_interface.py, models/document.py). -/
import Mathlib

namespace CCF

/-! ## DynamoDB-style key-value table model

Tables are association lists from a composite key (partition key
`custom_connector_arn_prefix` in the source, here called `arnRoot`, plus the
item id) to items.  `ddbLookup` models `get_item`, `ddbPut` models an
unconditional `put_item`/`update_item` write of a whole item. -/

abbrev DdbKey := String × String

def ddbLookup {α : Type} (tbl : List (DdbKey × α)) (k : DdbKey) : Option α :=
  match tbl with
  | [] => none
  | (k2, v) :: rest => if k2 = k then some v else ddbLookup rest k

def ddbPut {α : Type} (tbl : List (DdbKey × α)) (k : DdbKey) (v : α) :
    List (DdbKey × α) :=
  match tbl with
  | [] => [(k, v)]
  | (k2, v2) :: rest => if k2 = k then (k, v) :: rest else (k2, v2) :: ddbPut rest k v

/-! ## Tenant context (common/tenant.py)

`TenantContext.arnRoot` models `TenantContext.get_arn_prefix`
(the partition key of both tables): the string
`arn:aws:ccf:{region}:{account_id}`.  `tenantFromArn` models
`TenantContext.from_arn_prefix` (the malformed-input branch raises
`BadRequestError` in the source and is out of scope here; the model
returns an empty context in that case). -/

structure TenantContext where
  account_id : String
  region : String
deriving DecidableEq, Repr

def TenantContext.arnRoot (tc : TenantContext) : String :=
  "arn:aws:ccf:" ++ tc.region ++ ":" ++ tc.account_id

/-- Split a character list on `:` (the behaviour of `str.split(":")` /
`splitOn ":"` for the colon-separated ARN format). -/
def splitOnColon (cs : List Char) : List (List Char) :=
  match cs with
  | [] => [[]]
  | c :: rest =>
    let r := splitOnColon rest
    if c = ':' then [] :: r
    else
      match r with
      | [] => [[c]]
      | g :: gs => (c :: g) :: gs

def tenantFromArn (s : String) : TenantContext :=
  match (splitOnColon s.data).map (fun cs => String.mk cs) with
  | _ :: _ :: _ :: region :: account :: _ => { account_id := account, region := region }
  | _ => { account_id := "", region := "" }

/-! ## Error taxonomy

The source defines structurally identical `DaoResourceNotFoundError`,
`DaoConflictError` and `DaoInternalError` classes in each DAO module; the
model uses a single inductive for the shared taxonomy. -/

inductive DaoError where
  | resourceNotFound (message : String)
  | conflict (message : String)
  | internalError (message : String)
deriving DecidableEq, Repr

def DaoError.isConflict : DaoError → Bool
  | .conflict _ => true
  | _ => false

def DaoError.isNotFound : DaoError → Bool
  | .resourceNotFound _ => true
  | _ => false

/-- True exactly when a DAO call outcome is a raised `DaoConflictError`. -/
def isConflictResult {α : Type} : Except DaoError α → Bool
  | .error e => e.isConflict
  | .ok _ => false

/-! ## Connectors table items (custom_connectors_dao.py) -/

inductive ConnectorStatus where
  | AVAILABLE
  | IN_USE
deriving DecidableEq, Repr

/-- `ConnectorStatus.value` (the `str`-enum payload). -/
def ConnectorStatus.value : ConnectorStatus → String
  | .AVAILABLE => "AVAILABLE"
  | .IN_USE => "IN_USE"

structure ResourceRequirements where
  cpu : Nat
  memory : Nat
deriving DecidableEq, Repr

structure ContainerProperties where
  execution_role_arn : String
  image_uri : String
  job_role_arn : String
  resource_requirements : ResourceRequirements
  timeout : Nat
deriving DecidableEq, Repr

structure CheckpointRecord where
  checkpoint_data : String
  created_at : String
  updated_at : String
deriving DecidableEq, Repr

/-- A stored row of the CustomConnectors table.  `version` is `Option Int`
because the source reads it with `item.get("version", 1)`: the attribute may
be absent from an item. -/
structure ConnectorItem where
  connector_id : String
  arn : String
  name : String
  description : Option String
  container_properties : ContainerProperties
  status : ConnectorStatus
  checkpoint : Option CheckpointRecord
  created_at : String
  updated_at : String
  version : Option Int
deriving DecidableEq, Repr

abbrev ConnectorsTable := List (DdbKey × ConnectorItem)

/-- Timestamps: the source uses `datetime.now(UTC).isoformat()`; the model
takes the current time as epoch seconds `now : Nat` and renders it. -/
def isoNow (now : Nat) : String := toString now

def connectorKey (tc : TenantContext) (connector_id : String) : DdbKey :=
  (tc.arnRoot, connector_id)

/-! ## Connectors DAO operations

Each read-modify-write operation performs a `get_item` and then a
conditional write (`ConditionExpression="version = :current_version"`).
To express what happens when the stored row changes between the read and
the write, each such operation takes the table state seen by the read
(`tblRead`) and the table state the conditional write executes against
(`tblWrite`); a sequential, uncontended call passes the same table for
both.  A failing condition (version mismatch, version attribute absent,
or item deleted) is a `ConditionalCheckFailedException`, which the source
maps to `DaoConflictError`. -/

structure GetConnectorRequest where
  tenant_context : TenantContext
  connector_id : String

def get_connector (req : GetConnectorRequest) (tbl : ConnectorsTable) :
    Except DaoError ConnectorItem :=
  match ddbLookup tbl (connectorKey req.tenant_context req.connector_id) with
  | none => .error (.resourceNotFound ("Connector " ++ req.connector_id ++ " not found"))
  | some item => .ok item

structure UpdateConnectorStatusRequest where
  tenant_context : TenantContext
  connector_id : String
  status : ConnectorStatus

def update_connector_status (req : UpdateConnectorStatusRequest)
    (tblRead tblWrite : ConnectorsTable) (now : Nat) :
    Except DaoError ConnectorsTable :=
  let k := connectorKey req.tenant_context req.connector_id
  match ddbLookup tblRead k with
  | none => .error (.resourceNotFound ("Connector " ++ req.connector_id ++ " not found"))
  | some item =>
    let current_version : Int := item.version.getD 1
    let new_version : Int := current_version + 1
    match ddbLookup tblWrite k with
    | none =>
      .error (.conflict ("Connector " ++ req.connector_id ++ " was modified by another process"))
    | some itemW =>
      if itemW.version = some current_version then
        .ok (ddbPut tblWrite k
          { itemW with status := req.status, version := some new_version, updated_at := isoNow now })
      else
        .error (.conflict ("Connector " ++ req.connector_id ++ " was modified by another process"))

structure PutCheckpointRequest where
  tenant_context : TenantContext
  connector_id : String
  checkpoint_data : String

def put_checkpoint (req : PutCheckpointRequest)
    (tblRead tblWrite : ConnectorsTable) (now : Nat) :
    Except DaoError ConnectorsTable :=
  let k := connectorKey req.tenant_context req.connector_id
  let checkpoint_obj : CheckpointRecord :=
    { checkpoint_data := req.checkpoint_data, created_at := isoNow now, updated_at := isoNow now }
  match ddbLookup tblRead k with
  | none => .error (.resourceNotFound ("Connector " ++ req.connector_id ++ " not found"))
  | some item =>
    let current_version : Int := item.version.getD 1
    let new_version : Int := current_version + 1
    match ddbLookup tblWrite k with
    | none =>
      .error (.conflict ("Connector " ++ req.connector_id ++ " was modified by another process"))
    | some itemW =>
      if itemW.version = some current_version then
        .ok (ddbPut tblWrite k
          { itemW with checkpoint := some checkpoint_obj, version := some new_version,
                       updated_at := isoNow now })
      else
        .error (.conflict ("Connector " ++ req.connector_id ++ " was modified by another process"))

structure DeleteCheckpointRequest where
  tenant_context : TenantContext
  connector_id : String

def delete_checkpoint (req : DeleteCheckpointRequest)
    (tblRead tblWrite : ConnectorsTable) (now : Nat) :
    Except DaoError ConnectorsTable :=
  let k := connectorKey req.tenant_context req.connector_id
  match ddbLookup tblRead k with
  | none => .error (.resourceNotFound ("Connector " ++ req.connector_id ++ " not found"))
  | some item =>
    if item.checkpoint.isNone then
      .error (.resourceNotFound ("No checkpoint to delete for connector " ++ req.connector_id))
    else
      let current_version : Int := item.version.getD 1
      let new_version : Int := current_version + 1
      match ddbLookup tblWrite k with
      | none =>
        .error (.conflict ("Connector " ++ req.connector_id ++ " was modified by another process"))
      | some itemW =>
        if itemW.version = some current_version then
          .ok (ddbPut tblWrite k
            { itemW with checkpoint := none, version := some new_version,
                         updated_at := isoNow now })
        else
          .error (.conflict ("Connector " ++ req.connector_id ++ " was modified by another process"))

/-- Partial update request.  In the source `container_properties` carries an
`UpdateContainerProperties` whose dump wholesale replaces the stored map;
the model keeps the wholesale replacement with full properties. -/
structure UpdateConnectorRequest where
  tenant_context : TenantContext
  connector_id : String
  name : Option String
  description : Option String
  container_properties : Option ContainerProperties

def update_connector (req : UpdateConnectorRequest)
    (tblRead tblWrite : ConnectorsTable) (now : Nat) :
    Except DaoError ConnectorsTable :=
  let k := connectorKey req.tenant_context req.connector_id
  match ddbLookup tblRead k with
  | none => .error (.resourceNotFound ("Connector " ++ req.connector_id ++ " not found"))
  | some item =>
    let current_version : Int := item.version.getD 1
    let new_version : Int := current_version + 1
    let item1 := match req.name with
      | none => item
      | some n => { item with name := n }
    let item2 := match req.description with
      | none => item1
      | some d => { item1 with description := some d }
    let item3 := match req.container_properties with
      | none => item2
      | some cp => { item2 with container_properties := cp }
    let item4 := { item3 with updated_at := isoNow now, version := some new_version }
    -- put_item of the modified read-time item, conditional on the stored version
    match ddbLookup tblWrite k with
    | none =>
      .error (.conflict ("Connector " ++ req.connector_id ++ " was modified by another process"))
    | some itemW =>
      if itemW.version = some current_version then
        .ok (ddbPut tblWrite k item4)
      else
        .error (.conflict ("Connector " ++ req.connector_id ++ " was modified by another process"))

/-! ## Jobs table items and jobs DAO (custom_connector_jobs_dao.py) -/

inductive JobStatus where
  | STARTED
  | RUNNING
  | STOPPING
  | STOPPED
  | FAILED
  | SUCCEEDED
deriving DecidableEq, Repr

/-- A stored row of the CustomConnectorJobs table.  `ttl` is stored by the
source as a decimal string (`str(expires_at)`). -/
structure JobItem where
  job_id : String
  connector_id : String
  status : JobStatus
  environment : List (String × String)
  batch_job_id : Option String
  created_at : String
  updated_at : String
  ttl : Option String
deriving DecidableEq, Repr

abbrev JobsTable := List (DdbKey × JobItem)

/-- `_TTL_DAYS_AFTER_STOP = 7`. -/
def TTL_DAYS_AFTER_STOP : Nat := 7

/-- `int((now_dt + timedelta(days=_TTL_DAYS_AFTER_STOP)).timestamp())`. -/
def ttlEpoch (now : Nat) : Nat := now + TTL_DAYS_AFTER_STOP * 86400

def jobKey (tc : TenantContext) (job_id : String) : DdbKey :=
  (tc.arnRoot, job_id)

structure StartJobRequest where
  tenant_context : TenantContext
  connector_id : String
  environment : List (String × String)

structure StartJobResponse where
  job_id : String
  connector_id : String
  status : JobStatus
  created_at : String
deriving DecidableEq, Repr

/-- `CustomConnectorJobsDao.start_job`.  Storage-level `ClientError`s (and
hence the rollback path of step 3) are not modelled; the generated job id
is passed in as `newJobId`.  Returns the outcome together with the
resulting connectors and jobs tables (unchanged on failure, since every
failure is raised before any write). -/
def start_job (req : StartJobRequest) (connTbl : ConnectorsTable) (jobsTbl : JobsTable)
    (now : Nat) (newJobId : String) :
    Except DaoError StartJobResponse × ConnectorsTable × JobsTable :=
  -- Step 1: verify existence & availability
  match get_connector ⟨req.tenant_context, req.connector_id⟩ connTbl with
  | .error _ =>
    (.error (.resourceNotFound "Connector request.connector_id not found"), connTbl, jobsTbl)
  | .ok connector_info =>
    if connector_info.status ≠ ConnectorStatus.AVAILABLE then
      (.error (.conflict ("Connector " ++ req.connector_id ++ " is in state "
        ++ ConnectorStatus.value connector_info.status ++ " and is not AVAILABLE")),
       connTbl, jobsTbl)
    else
      -- Step 2: mark connector as IN_USE (an uncontended conditional update)
      match update_connector_status
          ⟨req.tenant_context, req.connector_id, ConnectorStatus.IN_USE⟩ connTbl connTbl now with
      | .error e => (.error e, connTbl, jobsTbl)
      | .ok connTbl2 =>
        -- Step 3: insert the new job record
        let item : JobItem :=
          { job_id := newJobId, connector_id := req.connector_id,
            status := JobStatus.STARTED, environment := req.environment,
            batch_job_id := none, created_at := isoNow now, updated_at := isoNow now,
            ttl := none }
        (.ok { job_id := newJobId, connector_id := req.connector_id,
               status := JobStatus.STARTED, created_at := isoNow now },
         connTbl2,
         ddbPut jobsTbl (jobKey req.tenant_context newJobId) item)

structure UpdateJobStatusRequest where
  tenant_context : TenantContext
  connector_id : String
  job_id : String
  status : JobStatus
  batch_job_id : Option String

/-- `CustomConnectorJobsDao.update_job_status`.

The call touches the connectors table at two moments: step 1 verifies the
connector exists (`connTbl`), and step 4 — reached only for a new status in
STOPPED/FAILED/SUCCEEDED — performs the read-then-conditional-write flip to
AVAILABLE (`connFlipRead`/`connFlipWrite`, cf. `update_connector_status`).
A sequential, uncontended call passes the same connectors table for all
three.  The result triple carries the outcome plus the final jobs and
connectors tables, because in the source the job write persists even when
a later step raises. -/
def update_job_status (req : UpdateJobStatusRequest)
    (connTbl : ConnectorsTable) (jobsTbl : JobsTable)
    (connFlipRead connFlipWrite : ConnectorsTable) (now : Nat) :
    Except DaoError Unit × JobsTable × ConnectorsTable :=
  -- Step 1: verify the connector exists
  match get_connector ⟨req.tenant_context, req.connector_id⟩ connTbl with
  | .error _ =>
    (.error (.resourceNotFound ("Connector " ++ req.connector_id ++ " not found")),
     jobsTbl, connFlipWrite)
  | .ok _ =>
    -- Step 2: retrieve current job status
    match ddbLookup jobsTbl (jobKey req.tenant_context req.job_id) with
    | none =>
      (.error (.resourceNotFound ("Job with ID " ++ req.job_id ++ " not found")),
       jobsTbl, connFlipWrite)
    | some item =>
      if item.status = JobStatus.STOPPED ∨ item.status = JobStatus.FAILED then
        (.error (.conflict ("Job " ++ req.job_id ++ " is already in terminal status")),
         jobsTbl, connFlipWrite)
      else
        -- Step 3: apply the update (SET status, updated_at, optionally
        -- batch_job_id; plus ttl when the new status is terminal)
        let item1 := { item with status := req.status, updated_at := isoNow now }
        let item2 := match req.batch_job_id with
          | none => item1
          | some b => { item1 with batch_job_id := some b }
        let mark_available :=
          req.status = JobStatus.STOPPED ∨ req.status = JobStatus.FAILED ∨
            req.status = JobStatus.SUCCEEDED
        let item3 := if mark_available
          then { item2 with ttl := some (toString (ttlEpoch now)) }
          else item2
        let jobsTbl2 := ddbPut jobsTbl (jobKey req.tenant_context req.job_id) item3
        -- Step 4: if terminal, mark the connector AVAILABLE
        if mark_available then
          match update_connector_status
              ⟨req.tenant_context, req.connector_id, ConnectorStatus.AVAILABLE⟩
              connFlipRead connFlipWrite now with
          | .ok conn2 => (.ok (), jobsTbl2, conn2)
          | .error (.resourceNotFound _) =>
            -- connector removed after job creation: ignored
            (.ok (), jobsTbl2, connFlipWrite)
          | .error e => (.error e, jobsTbl2, connFlipWrite)
        else
          (.ok (), jobsTbl2, connFlipWrite)

/-! ## Job orchestrator handler (job_orchestrator_handler.py)

External AWS Batch calls are modelled as emitted actions; `register` and
`submit` are assumed to succeed (their own transport failures are outside
the embedding), and the submit response job id is passed in as
`batchJobId`. -/

inductive BatchAction where
  | registerJobDefinition (jobDefinitionName : String) (image : String)
  | submitJob (jobName : String) (jobDefinition : String)
  | cancelJob (jobId : String)
deriving DecidableEq, Repr

structure JobStartContext where
  job_id : String
  connector_id : String
  arnRoot : String   -- custom connector arn partition key of the stream image
  environment : List (String × String)
  tenant_context : TenantContext

/-- The `except` block of `handle_job_start` (lines 213-239): set the job
FAILED, then flip the connector AVAILABLE, swallowing secondary errors.
If the FAILED update itself raises, the connector flip is skipped. -/
def jobStartFailurePath (tc : TenantContext) (connector_id job_id : String)
    (conn : ConnectorsTable) (jobs : JobsTable) (now : Nat) :
    JobsTable × ConnectorsTable :=
  match update_job_status ⟨tc, connector_id, job_id, JobStatus.FAILED, none⟩
      conn jobs conn conn now with
  | (.error _, jobs2, conn2) => (jobs2, conn2)
  | (.ok _, jobs2, conn2) =>
    match update_connector_status ⟨tc, connector_id, ConnectorStatus.AVAILABLE⟩
        conn2 conn2 now with
    | .ok conn3 => (jobs2, conn3)
    | .error _ => (jobs2, conn2)

/-- `handle_job_start`: fetch the connector spec, register a job definition,
submit the batch job, then set the job RUNNING with the batch job id.  Note
that the job row is never re-read before the register/submit calls — the
only read before submitting is `get_connector`. -/
def handle_job_start (ctx : JobStartContext) (conn : ConnectorsTable)
    (jobs : JobsTable) (now : Nat) (batchJobId : String) :
    List BatchAction × JobsTable × ConnectorsTable :=
  match get_connector ⟨ctx.tenant_context, ctx.connector_id⟩ conn with
  | .error _ =>
    let (jobs2, conn2) :=
      jobStartFailurePath ctx.tenant_context ctx.connector_id ctx.job_id conn jobs now
    ([], jobs2, conn2)
  | .ok connector =>
    let acts : List BatchAction :=
      [BatchAction.registerJobDefinition ctx.job_id connector.container_properties.image_uri,
       BatchAction.submitJob ctx.job_id ctx.job_id]
    match update_job_status
        ⟨ctx.tenant_context, ctx.connector_id, ctx.job_id, JobStatus.RUNNING, some batchJobId⟩
        conn jobs conn conn now with
    | (.ok _, jobs2, conn2) => (acts, jobs2, conn2)
    | (.error _, jobs2, conn2) =>
      let (jobs3, conn3) :=
        jobStartFailurePath ctx.tenant_context ctx.connector_id ctx.job_id conn2 jobs2 now
      (acts, jobs3, conn3)

/-- `handle_job_stop` (successful-cancellation path; a missing or empty
batch_job_id is logged and dropped). -/
def handle_job_stop (_job_id _connector_id : String) (batch_job_id : Option String)
    (_tc : TenantContext) (conn : ConnectorsTable) (jobs : JobsTable) :
    List BatchAction × JobsTable × ConnectorsTable :=
  match batch_job_id with
  | none => ([], jobs, conn)
  | some b => if b = "" then ([], jobs, conn) else ([BatchAction.cancelJob b], jobs, conn)

/-- The `new_image` of a DynamoDB stream record for a job row. -/
structure StreamNewImage where
  job_id : Option String
  connector_id : Option String
  arnRoot : Option String   -- the partition key attribute of the row
  status : Option String
  batch_job_id : Option String
  environment : List (String × String)

/-- `record_handler`: dispatch a change-feed record on its status string.
`not all([...])` in the source also rejects empty strings (falsy). -/
def record_handler (newImage : Option StreamNewImage) (conn : ConnectorsTable)
    (jobs : JobsTable) (now : Nat) (batchJobId : String) :
    List BatchAction × JobsTable × ConnectorsTable :=
  match newImage with
  | none => ([], jobs, conn)
  | some im =>
    match im.job_id, im.connector_id, im.arnRoot, im.status with
    | some jid, some cid, some arn, some st =>
      if jid = "" ∨ cid = "" ∨ arn = "" ∨ st = "" then ([], jobs, conn)
      else
        let tc := tenantFromArn arn
        if st = "STARTED" then
          handle_job_start ⟨jid, cid, arn, im.environment, tc⟩ conn jobs now batchJobId
        else if st = "STOPPING" then
          handle_job_stop jid cid im.batch_job_id tc conn jobs
        else ([], jobs, conn)
    | _, _, _, _ => ([], jobs, conn)

/-! ## Job status handler (job_status_handler.py) -/

def lookupEnv (env : List (String × String)) (name : String) : Option String :=
  match env with
  | [] => none
  | (n, v) :: rest => if n = name then some v else lookupEnv rest name

/-- `process_batch_event`: map a Batch job state-change event to a job
status update plus a connector flip.  `jobName` doubles as the custom
connector job id.  Missing environment entries make the source crash while
building the tenant context / request models; the model returns an
internal error for that path. -/
def process_batch_event (jobName : Option String) (batchStatus : Option String)
    (containerEnv : List (String × String)) (conn : ConnectorsTable)
    (jobs : JobsTable) (now : Nat) :
    Except DaoError Unit × JobsTable × ConnectorsTable :=
  match jobName, batchStatus with
  | some bj, some bs =>
    if bj = "" ∨ (bs ≠ "SUCCEEDED" ∧ bs ≠ "FAILED") then (.ok (), jobs, conn)
    else
      match lookupEnv containerEnv "CUSTOM_CONNECTOR_FRAMEWORK_CUSTOM_CONNECTOR_ID",
            lookupEnv containerEnv "CUSTOM_CONNECTOR_FRAMEWORK_CUSTOM_CONNECTOR_ARN_PREFIX" with
      | some cid, some arn =>
        let tc := tenantFromArn arn
        -- get the current job status to check for the STOPPING state
        let current_status : Option JobStatus := (ddbLookup jobs (arn, bj)).map JobItem.status
        let job_status : Option JobStatus :=
          if bs = "SUCCEEDED" then some JobStatus.SUCCEEDED
          else if bs = "FAILED" then
            if current_status = some JobStatus.STOPPING then some JobStatus.STOPPED
            else some JobStatus.FAILED
          else none
        match job_status with
        | none => (.ok (), jobs, conn)
        | some js =>
          match update_job_status ⟨tc, cid, bj, js, some bj⟩ conn jobs conn conn now with
          | (.error e, jobs2, conn2) => (.error e, jobs2, conn2)
          | (.ok _, jobs2, conn2) =>
            -- make the connector available again
            match update_connector_status ⟨tc, cid, ConnectorStatus.AVAILABLE⟩
                conn2 conn2 now with
            | .ok conn3 => (.ok (), jobs2, conn3)
            | .error e => (.error e, jobs2, conn2)
      | _, _ => (.error (.internalError "missing container environment"), jobs, conn)
  | _, _ => (.ok (), jobs, conn)

/-! ## Builder kit: documents and checksums (models/document.py)

A `DocumentFile` abstracts a filesystem file by its two observable
operations: `size` models `get_size()` (`stat().st_size`) and `content`
models reading the file bytes for hashing / blob upload. -/

structure DocumentFile where
  file_path : String
  content : String
  size : Nat
deriving DecidableEq, Repr

structure DocumentMetadata where
  title : String
  source_uri : Option String
  last_updated_at : String
  created_at : String
  attributes : List (String × String)
  access_control_list : List String
deriving DecidableEq, Repr

structure Document where
  id : String
  file : DocumentFile
  metadata : DocumentMetadata
deriving DecidableEq, Repr

def jsonString (s : String) : String := "\x22" ++ s ++ "\x22"

def joinComma : List String → String
  | [] => ""
  | [s] => s
  | s :: rest => s ++ "," ++ joinComma rest

/-- Insertion sort of attribute pairs by key, modelling
`json.dumps(..., sort_keys=True)` for the attributes map. -/
def insertPairByKey (p : String × String) : List (String × String) → List (String × String)
  | [] => [p]
  | q :: rest => if p.1 ≤ q.1 then p :: q :: rest else q :: insertPairByKey p rest

def sortPairsByKey : List (String × String) → List (String × String)
  | [] => []
  | p :: rest => insertPairByKey p (sortPairsByKey rest)

/-- The metadata dump used inside `Document.get_checksum`:
`model_dump_json(exclude={"last_updated_at", "created_at"}, exclude_none=True)`
re-serialised with sorted keys.  Field keys in alphabetical order are
access_control_list, attributes, source_uri, title; the two timestamp
fields are excluded, and a `None` source_uri is dropped. -/
def dumpMetadataForChecksum (m : DocumentMetadata) : String :=
  let attrs := (sortPairsByKey m.attributes).map
    (fun p => jsonString p.1 ++ ":" ++ jsonString p.2)
  let acl := m.access_control_list.map jsonString
  "\x7b" ++ jsonString "access_control_list" ++ ":[" ++ joinComma acl ++ "],"
    ++ jsonString "attributes" ++ ":\x7b" ++ joinComma attrs ++ "\x7d,"
    ++ (match m.source_uri with
        | none => ""
        | some u => jsonString "source_uri" ++ ":" ++ jsonString u ++ ",")
    ++ jsonString "title" ++ ":" ++ jsonString m.title ++ "\x7d"

/-- The string hashed by `Document.get_checksum`:
`f"{self.id}+{metadata}"` plus `+` and the hex digest of the file bytes.
The SHA-256 digest itself is abstracted as the function `sha256hex`. -/
def checksumData (sha256hex : String → String) (d : Document) : String :=
  d.id ++ "+" ++ dumpMetadataForChecksum d.metadata ++ "+" ++ sha256hex d.file.content

/-- `Document.get_checksum`, parametric in the SHA-256 hex digest
function. -/
def get_checksum (sha256hex : String → String) (d : Document) : String :=
  sha256hex (checksumData sha256hex d)

/-! ## Builder kit: sync candidate selection (custom_connector_interface.py)

The checksum ledger (`ccf_client.list_documents().documents`) is modelled
as an association list from document id to stored checksum. -/

def ccfLookup (ledger : List (String × String)) (id : String) : Option String :=
  match ledger with
  | [] => none
  | (n, v) :: rest => if n = id then some v else ccfLookup rest id

/-- The candidate-selection loop of `sync` (lines 130-139): a document is
kept when its id is absent from the ledger, or present with a checksum
different from the document's current checksum. -/
def docs_to_sync (sha256hex : String → String) (current_docs : List Document)
    (ledger : List (String × String)) : List Document :=
  current_docs.filter fun doc =>
    match ccfLookup ledger doc.id with
    | none => true
    | some stored => stored ≠ get_checksum sha256hex doc

/-! ## Builder kit: upsert batching (custom_connector_interface.py) -/

/-- `QBusinessConstants.BATCH_LIMITS`. -/
def PUT_MAX_DOCS : Nat := 10
def PUT_MAX_TOTAL_SIZE : Nat := 10 * 1024 * 1024
def PUT_MAX_SINGLE_SIZE : Nat := 50 * 1024 * 1024
def DELETE_MAX_DOCS : Nat := 10

inductive DocContent where
  | blob (data : String)
  | s3 (bucket : String) (key : String)
deriving DecidableEq, Repr

structure QBusinessDocument where
  id : String
  title : String
  content : DocContent
deriving DecidableEq, Repr

/-- `_handle_large_document`: offload to S3 when configured, else skip. -/
def handle_large_document (s3Bucket : Option String) (d : Document) :
    Option (String × String) :=
  match s3Bucket with
  | none => none
  | some bucket => some (bucket, "qbusiness-docs/" ++ d.id)

/-- `_prepare_document_for_upload`: skip documents above the 50 MiB single
document ceiling; offload those above 10 MiB to S3 (skipping them when S3
is not configured); otherwise inline the content as a blob.  Attribute and
access-configuration assembly is irrelevant to batching and elided. -/
def prepare_document_for_upload (s3Bucket : Option String) (d : Document) :
    Option QBusinessDocument :=
  let file_size := d.file.size
  if file_size > PUT_MAX_SINGLE_SIZE then none
  else if file_size > PUT_MAX_TOTAL_SIZE then
    match handle_large_document s3Bucket d with
    | none => none
    | some (bucket, key) =>
      some { id := d.id, title := d.metadata.title, content := DocContent.s3 bucket key }
  else
    some { id := d.id, title := d.metadata.title, content := DocContent.blob d.file.content }

/-- The loop of `_batch_put_documents`.  `batch` and `size_accumulator`
are the loop state; each dispatched batch is recorded as the list of
source documents whose prepared forms it contains (the prepared form of a
batch member is `prepare_document_for_upload` of it, and the byte size
accounted for it is its source file size). -/
def batchPutGo (s3Bucket : Option String) (docs : List Document)
    (batch : List Document) (size_accumulator : Nat) : List (List Document) :=
  match docs with
  | [] => if batch.isEmpty then [] else [batch]
  | d :: rest =>
    match prepare_document_for_upload s3Bucket d with
    | none => batchPutGo s3Bucket rest batch size_accumulator
    | some _ =>
      let batch2 := batch ++ [d]
      let acc2 := size_accumulator + d.file.size
      if batch2.length = PUT_MAX_DOCS ∨ acc2 ≥ PUT_MAX_TOTAL_SIZE then
        batch2 :: batchPutGo s3Bucket rest [] 0
      else
        batchPutGo s3Bucket rest batch2 acc2

/-- `_batch_put_documents`: the sequence of batches dispatched to
`_qbusiness_batch_put_documents`, in dispatch order. -/
def batch_put_documents (s3Bucket : Option String) (docs : List Document) :
    List (List Document) :=
  batchPutGo s3Bucket docs [] 0

/-- Cumulative payload size accounted for a batch. -/
def batchSize (b : List Document) : Nat :=
  (b.map (fun d => d.file.size)).sum

/-! ## Concrete fixtures used by witnesses and counterexamples -/

def tcTest : TenantContext := { account_id := "123456789012", region := "us-east-1" }

def cpTest : ContainerProperties :=
  { execution_role_arn := "role-exec", image_uri := "image:1", job_role_arn := "role-job",
    resource_requirements := { cpu := 1, memory := 2048 }, timeout := 3600 }

def connItemAvailable : ConnectorItem :=
  { connector_id := "cc-1", arn := "arn:aws:ccf:us-east-1:123456789012:custom-connector/cc-1",
    name := "conn", description := none, container_properties := cpTest,
    status := ConnectorStatus.AVAILABLE, checkpoint := some ⟨"cp-data", "0", "0"⟩,
    created_at := "0", updated_at := "0", version := some 1 }

def connItemInUse : ConnectorItem := { connItemAvailable with status := ConnectorStatus.IN_USE }

def connTblAvailable : ConnectorsTable := [(connectorKey tcTest "cc-1", connItemAvailable)]

def connTblInUse : ConnectorsTable := [(connectorKey tcTest "cc-1", connItemInUse)]

def jobItemOf (st : JobStatus) : JobItem :=
  { job_id := "ccj-1", connector_id := "cc-1", status := st, environment := [],
    batch_job_id := some "b-1", created_at := "0", updated_at := "0", ttl := none }

def jobsTblOf (st : JobStatus) : JobsTable := [(jobKey tcTest "ccj-1", jobItemOf st)]

def metaTest : DocumentMetadata :=
  { title := "doc title", source_uri := some "https://example.com/doc",
    last_updated_at := "2026-01-01T00:00:00", created_at := "2026-01-01T00:00:00",
    attributes := [("author", "a"), ("category", "b")], access_control_list := [] }

/-- A document fixture with an explicit file size in bytes. -/
def docOfSize (id : String) (size : Nat) : Document :=
  { id := id, file := { file_path := "/data/" ++ id, content := "payload", size := size },
    metadata := metaTest }

/-- 6 MiB: two of these exceed the 10 MiB batch cap together. -/
def docSixMiB1 : Document := docOfSize "doc-6a" 6291456

def docSixMiB2 : Document := docOfSize "doc-6b" 6291456

def docTimestampA : Document :=
  { id := "doc-ts", file := { file_path := "/data/doc-ts", content := "same bytes", size := 10 },
    metadata := metaTest }

def docTimestampB : Document :=
  { docTimestampA with
    metadata := { metaTest with
      last_updated_at := "2026-02-02T00:00:00", created_at := "2026-03-03T00:00:00" } }

end CCF

/-! # Claims -/

open CCF

theorem ddbLookup_ddbPut_self {α : Type} (tbl : List (DdbKey × α)) (k : DdbKey) (v : α) :
    ddbLookup (ddbPut tbl k v) k = some v := by
  induction tbl with
  | nil => simp [ddbPut, ddbLookup]
  | cons hd tl ih =>
    obtain ⟨k2, v2⟩ := hd
    by_cases h : k2 = k
    · simp [ddbPut, h, ddbLookup]
    · simp [ddbPut, h, ddbLookup, ih]

theorem ddbLookup_ddbPut_ne {α : Type} (tbl : List (DdbKey × α)) (k k2 : DdbKey) (v : α)
    (h : k2 ≠ k) : ddbLookup (ddbPut tbl k v) k2 = ddbLookup tbl k2 := by
  have hne : ¬k = k2 := fun hk => h hk.symm
  induction tbl with
  | nil => simp [ddbPut, ddbLookup, hne]
  | cons hd tl ih =>
    obtain ⟨k3, v3⟩ := hd
    by_cases h3 : k3 = k
    · subst h3
      simp [ddbPut, ddbLookup, hne]
    · simp [ddbPut, h3, ddbLookup, ih]

/-- C1 (counterexample): the claim includes SUCCEEDED among the stored
statuses from which `update_job_status` must fail with Conflict, but the
source guard (custom_connector_jobs_dao.py line 359) only checks STOPPED
and FAILED.  On a job stored as SUCCEEDED, a concrete `update_job_status`
call succeeds and overwrites the stored status. -/
theorem update_job_status_succeeded_not_guarded_cex :
    (update_job_status ⟨tcTest, "cc-1", "ccj-1", JobStatus.RUNNING, none⟩
        connTblAvailable (jobsTblOf JobStatus.SUCCEEDED)
        connTblAvailable connTblAvailable 1).1 = Except.ok () ∧
    (ddbLookup (update_job_status ⟨tcTest, "cc-1", "ccj-1", JobStatus.RUNNING, none⟩
        connTblAvailable (jobsTblOf JobStatus.SUCCEEDED)
        connTblAvailable connTblAvailable 1).2.1
      (jobKey tcTest "ccj-1")).map JobItem.status = some JobStatus.RUNNING := by
  constructor
  · rfl
  · rfl

/-- C1 (amended): for every job whose stored status is in the guard set
that the code actually uses, STOPPED or FAILED, every `update_job_status`
call fails with Conflict and leaves both tables unchanged; a stored
SUCCEEDED status is not guarded. -/
theorem update_job_status_terminal_conflict
    (req : UpdateJobStatusRequest) (connTbl connFR connFW : ConnectorsTable)
    (jobsTbl : JobsTable) (now : Nat) (c : ConnectorItem) (j : JobItem)
    (hc : ddbLookup connTbl (connectorKey req.tenant_context req.connector_id) = some c)
    (hj : ddbLookup jobsTbl (jobKey req.tenant_context req.job_id) = some j)
    (hterm : j.status = JobStatus.STOPPED ∨ j.status = JobStatus.FAILED) :
    update_job_status req connTbl jobsTbl connFR connFW now =
      (Except.error (DaoError.conflict ("Job " ++ req.job_id ++ " is already in terminal status")),
       jobsTbl, connFW) := by
  simp only [update_job_status, get_connector, hc, hj]
  have : j.status = JobStatus.STOPPED ∨ j.status = JobStatus.FAILED := hterm
  simp [this]

/-- C1 (witness for the amended theorem): a concrete call on a job stored
as STOPPED fails with Conflict and changes nothing. -/
theorem update_job_status_terminal_conflict_witness :
    update_job_status ⟨tcTest, "cc-1", "ccj-1", JobStatus.RUNNING, none⟩
        connTblAvailable (jobsTblOf JobStatus.STOPPED)
        connTblAvailable connTblAvailable 1 =
      (Except.error (DaoError.conflict ("Job " ++ "ccj-1" ++ " is already in terminal status")),
       jobsTblOf JobStatus.STOPPED, connTblAvailable) :=
  update_job_status_terminal_conflict
    ⟨tcTest, "cc-1", "ccj-1", JobStatus.RUNNING, none⟩
    connTblAvailable connTblAvailable connTblAvailable
    (jobsTblOf JobStatus.STOPPED) 1 connItemAvailable (jobItemOf JobStatus.STOPPED)
    (by rfl) (by rfl) (Or.inl rfl)

/-! Helper lemmas for the optimistic-locking behaviour of the four mutating
connector operations.  In each, `v` is the version the operation read
(`item.get("version", 1)` on the read-time item) and the write-time item
`itemW` is the row the conditional expression is evaluated against. -/

theorem update_connector_status_ok (tc : TenantContext) (cid : String)
    (st : ConnectorStatus) (now : Nat) (tR tW : ConnectorsTable)
    (item itemW : ConnectorItem) (v : Int)
    (hR : ddbLookup tR (connectorKey tc cid) = some item)
    (hv : item.version = some v)
    (hW : ddbLookup tW (connectorKey tc cid) = some itemW)
    (hvW : itemW.version = some v) :
    update_connector_status ⟨tc, cid, st⟩ tR tW now =
      Except.ok (ddbPut tW (connectorKey tc cid)
        { itemW with status := st, version := some (v + 1), updated_at := isoNow now }) := by
  simp [update_connector_status, hR, hW, hv, hvW]

theorem update_connector_status_stale (tc : TenantContext) (cid : String)
    (st : ConnectorStatus) (now : Nat) (tR tW : ConnectorsTable)
    (item itemW : ConnectorItem) (v w : Int)
    (hR : ddbLookup tR (connectorKey tc cid) = some item)
    (hv : item.version = some v)
    (hW : ddbLookup tW (connectorKey tc cid) = some itemW)
    (hvW : itemW.version = some w) (hne : w ≠ v) :
    isConflictResult (update_connector_status ⟨tc, cid, st⟩ tR tW now) = true := by
  simp [update_connector_status, hR, hW, hv, hvW, hne, isConflictResult, DaoError.isConflict]

theorem put_checkpoint_ok (tc : TenantContext) (cid : String)
    (cpData : String) (now : Nat) (tR tW : ConnectorsTable)
    (item itemW : ConnectorItem) (v : Int)
    (hR : ddbLookup tR (connectorKey tc cid) = some item)
    (hv : item.version = some v)
    (hW : ddbLookup tW (connectorKey tc cid) = some itemW)
    (hvW : itemW.version = some v) :
    put_checkpoint ⟨tc, cid, cpData⟩ tR tW now =
      Except.ok (ddbPut tW (connectorKey tc cid)
        { itemW with checkpoint := some ⟨cpData, isoNow now, isoNow now⟩,
                     version := some (v + 1), updated_at := isoNow now }) := by
  simp [put_checkpoint, hR, hW, hv, hvW]

theorem put_checkpoint_stale (tc : TenantContext) (cid : String)
    (cpData : String) (now : Nat) (tR tW : ConnectorsTable)
    (item itemW : ConnectorItem) (v w : Int)
    (hR : ddbLookup tR (connectorKey tc cid) = some item)
    (hv : item.version = some v)
    (hW : ddbLookup tW (connectorKey tc cid) = some itemW)
    (hvW : itemW.version = some w) (hne : w ≠ v) :
    isConflictResult (put_checkpoint ⟨tc, cid, cpData⟩ tR tW now) = true := by
  simp [put_checkpoint, hR, hW, hv, hvW, hne, isConflictResult, DaoError.isConflict]

theorem delete_checkpoint_ok (tc : TenantContext) (cid : String) (now : Nat)
    (tR tW : ConnectorsTable) (item itemW : ConnectorItem) (v : Int)
    (hR : ddbLookup tR (connectorKey tc cid) = some item)
    (hv : item.version = some v)
    (hcp : item.checkpoint.isSome = true)
    (hW : ddbLookup tW (connectorKey tc cid) = some itemW)
    (hvW : itemW.version = some v) :
    delete_checkpoint ⟨tc, cid⟩ tR tW now =
      Except.ok (ddbPut tW (connectorKey tc cid)
        { itemW with checkpoint := none, version := some (v + 1),
                     updated_at := isoNow now }) := by
  have hcp2 : item.checkpoint.isNone = false := by
    cases h : item.checkpoint with
    | none => rw [h] at hcp; simp [Option.isSome] at hcp
    | some cp => simp [Option.isNone]
  simp [delete_checkpoint, hR, hW, hv, hvW, hcp2]

theorem delete_checkpoint_stale (tc : TenantContext) (cid : String) (now : Nat)
    (tR tW : ConnectorsTable) (item itemW : ConnectorItem) (v w : Int)
    (hR : ddbLookup tR (connectorKey tc cid) = some item)
    (hv : item.version = some v)
    (hcp : item.checkpoint.isSome = true)
    (hW : ddbLookup tW (connectorKey tc cid) = some itemW)
    (hvW : itemW.version = some w) (hne : w ≠ v) :
    isConflictResult (delete_checkpoint ⟨tc, cid⟩ tR tW now) = true := by
  have hcp2 : item.checkpoint.isNone = false := by
    cases h : item.checkpoint with
    | none => rw [h] at hcp; simp [Option.isSome] at hcp
    | some cp => simp [Option.isNone]
  simp [delete_checkpoint, hR, hW, hv, hvW, hne, hcp2, isConflictResult, DaoError.isConflict]

theorem update_connector_ok (tc : TenantContext) (cid : String)
    (nameU descU : Option String) (cpU : Option ContainerProperties) (now : Nat)
    (tR tW : ConnectorsTable) (item itemW : ConnectorItem) (v : Int)
    (hR : ddbLookup tR (connectorKey tc cid) = some item)
    (hv : item.version = some v)
    (hW : ddbLookup tW (connectorKey tc cid) = some itemW)
    (hvW : itemW.version = some v) :
    ∃ it2, update_connector ⟨tc, cid, nameU, descU, cpU⟩ tR tW now =
        Except.ok (ddbPut tW (connectorKey tc cid) it2) ∧ it2.version = some (v + 1) := by
  simp only [update_connector, hR, hW, hv, Option.getD_some, hvW, if_pos]
  exact ⟨_, rfl, rfl⟩

theorem update_connector_stale (tc : TenantContext) (cid : String)
    (nameU descU : Option String) (cpU : Option ContainerProperties) (now : Nat)
    (tR tW : ConnectorsTable) (item itemW : ConnectorItem) (v w : Int)
    (hR : ddbLookup tR (connectorKey tc cid) = some item)
    (hv : item.version = some v)
    (hW : ddbLookup tW (connectorKey tc cid) = some itemW)
    (hvW : itemW.version = some w) (hne : w ≠ v) :
    isConflictResult (update_connector ⟨tc, cid, nameU, descU, cpU⟩ tR tW now) = true := by
  simp [update_connector, hR, hW, hv, hvW, hne, isConflictResult, DaoError.isConflict]

/-- The stored version of a connector row in a table. -/
def storedVersion (tbl : ConnectorsTable) (k : DdbKey) : Option Int :=
  (ddbLookup tbl k).bind ConnectorItem.version

/-- C2: each of the four mutating connector operations
(`update_connector_status`, `update_connector`, `put_checkpoint`,
`delete_checkpoint`) reads the stored `version` and writes conditionally
on `version = :current_version`.  When the write-time stored version still
equals the read version `v`, every operation succeeds and the stored
version becomes exactly `v + 1`; when the write-time stored version `w`
differs from the read version, every operation fails with Conflict. -/
theorem connector_version_optimistic_locking
    (tc : TenantContext) (cid : String) (now : Nat)
    (st : ConnectorStatus) (cpData : String)
    (nameU descU : Option String) (cpU : Option ContainerProperties)
    (tR tW : ConnectorsTable) (item itemW : ConnectorItem) (v : Int)
    (hR : ddbLookup tR (connectorKey tc cid) = some item)
    (hv : item.version = some v)
    (hcp : item.checkpoint.isSome = true)
    (hW : ddbLookup tW (connectorKey tc cid) = some itemW)
    (hvW : itemW.version = some v)
    (sR sW : ConnectorsTable) (sitem sitemW : ConnectorItem) (v2 w : Int)
    (hsR : ddbLookup sR (connectorKey tc cid) = some sitem)
    (hsv : sitem.version = some v2)
    (hscp : sitem.checkpoint.isSome = true)
    (hsW : ddbLookup sW (connectorKey tc cid) = some sitemW)
    (hsw : sitemW.version = some w)
    (hne : w ≠ v2) :
    ((∃ t2, update_connector_status ⟨tc, cid, st⟩ tR tW now = Except.ok t2 ∧
        storedVersion t2 (connectorKey tc cid) = some (v + 1)) ∧
     (∃ t2, update_connector ⟨tc, cid, nameU, descU, cpU⟩ tR tW now = Except.ok t2 ∧
        storedVersion t2 (connectorKey tc cid) = some (v + 1)) ∧
     (∃ t2, put_checkpoint ⟨tc, cid, cpData⟩ tR tW now = Except.ok t2 ∧
        storedVersion t2 (connectorKey tc cid) = some (v + 1)) ∧
     (∃ t2, delete_checkpoint ⟨tc, cid⟩ tR tW now = Except.ok t2 ∧
        storedVersion t2 (connectorKey tc cid) = some (v + 1))) ∧
    (isConflictResult (update_connector_status ⟨tc, cid, st⟩ sR sW now) = true ∧
     isConflictResult (update_connector ⟨tc, cid, nameU, descU, cpU⟩ sR sW now) = true ∧
     isConflictResult (put_checkpoint ⟨tc, cid, cpData⟩ sR sW now) = true ∧
     isConflictResult (delete_checkpoint ⟨tc, cid⟩ sR sW now) = true) := by
  constructor
  · refine ⟨⟨_, update_connector_status_ok tc cid st now tR tW item itemW v hR hv hW hvW, ?_⟩,
      ?_, ⟨_, put_checkpoint_ok tc cid cpData now tR tW item itemW v hR hv hW hvW, ?_⟩,
      ⟨_, delete_checkpoint_ok tc cid now tR tW item itemW v hR hv hcp hW hvW, ?_⟩⟩
    · simp [storedVersion, ddbLookup_ddbPut_self]
    · obtain ⟨it2, heq, hver⟩ :=
        update_connector_ok tc cid nameU descU cpU now tR tW item itemW v hR hv hW hvW
      exact ⟨_, heq, by simp [storedVersion, ddbLookup_ddbPut_self, hver]⟩
    · simp [storedVersion, ddbLookup_ddbPut_self]
    · simp [storedVersion, ddbLookup_ddbPut_self]
  · exact ⟨update_connector_status_stale tc cid st now sR sW sitem sitemW v2 w hsR hsv hsW hsw hne,
      update_connector_stale tc cid nameU descU cpU now sR sW sitem sitemW v2 w hsR hsv hsW hsw hne,
      put_checkpoint_stale tc cid cpData now sR sW sitem sitemW v2 w hsR hsv hsW hsw hne,
      delete_checkpoint_stale tc cid now sR sW sitem sitemW v2 w hsR hsv hscp hsW hsw hne⟩

/-- C2 (witness): a concrete uncontended mutation bumps version 1 to 2,
and the same mutations against a write-time version 5 ≠ 1 all fail with
Conflict. -/
theorem connector_version_optimistic_locking_witness :
    ((∃ t2, update_connector_status ⟨tcTest, "cc-1", ConnectorStatus.IN_USE⟩
          connTblAvailable connTblAvailable 1 = Except.ok t2 ∧
        storedVersion t2 (connectorKey tcTest "cc-1") = some (1 + 1)) ∧
     (∃ t2, update_connector ⟨tcTest, "cc-1", some "n2", none, none⟩
          connTblAvailable connTblAvailable 1 = Except.ok t2 ∧
        storedVersion t2 (connectorKey tcTest "cc-1") = some (1 + 1)) ∧
     (∃ t2, put_checkpoint ⟨tcTest, "cc-1", "cp2"⟩
          connTblAvailable connTblAvailable 1 = Except.ok t2 ∧
        storedVersion t2 (connectorKey tcTest "cc-1") = some (1 + 1)) ∧
     (∃ t2, delete_checkpoint ⟨tcTest, "cc-1"⟩
          connTblAvailable connTblAvailable 1 = Except.ok t2 ∧
        storedVersion t2 (connectorKey tcTest "cc-1") = some (1 + 1))) ∧
    (isConflictResult (update_connector_status ⟨tcTest, "cc-1", ConnectorStatus.IN_USE⟩
        connTblAvailable [(connectorKey tcTest "cc-1", { connItemAvailable with version := some 5 })] 1) = true ∧
     isConflictResult (update_connector ⟨tcTest, "cc-1", some "n2", none, none⟩
        connTblAvailable [(connectorKey tcTest "cc-1", { connItemAvailable with version := some 5 })] 1) = true ∧
     isConflictResult (put_checkpoint ⟨tcTest, "cc-1", "cp2"⟩
        connTblAvailable [(connectorKey tcTest "cc-1", { connItemAvailable with version := some 5 })] 1) = true ∧
     isConflictResult (delete_checkpoint ⟨tcTest, "cc-1"⟩
        connTblAvailable [(connectorKey tcTest "cc-1", { connItemAvailable with version := some 5 })] 1) = true) :=
  connector_version_optimistic_locking tcTest "cc-1" 1 ConnectorStatus.IN_USE "cp2"
    (some "n2") none none
    connTblAvailable connTblAvailable connItemAvailable connItemAvailable 1
    (by rfl) (by rfl) (by rfl) (by rfl) (by rfl)
    connTblAvailable [(connectorKey tcTest "cc-1", { connItemAvailable with version := some 5 })]
    connItemAvailable { connItemAvailable with version := some 5 } 1 5
    (by rfl) (by rfl) (by rfl) (by rfl) (by rfl) (by decide)

/-! Helper lemmas for `update_job_status` on a terminal new status, one per
behaviour of the step-4 connector flip. -/

theorem ujs_terminal_flip_ok (req : UpdateJobStatusRequest) (now : Nat)
    (hterm : req.status = JobStatus.STOPPED ∨ req.status = JobStatus.FAILED ∨
      req.status = JobStatus.SUCCEEDED)
    (connTbl : ConnectorsTable) (jobsTbl : JobsTable) (c : ConnectorItem) (j : JobItem)
    (hc : ddbLookup connTbl (connectorKey req.tenant_context req.connector_id) = some c)
    (hj : ddbLookup jobsTbl (jobKey req.tenant_context req.job_id) = some j)
    (hnt1 : j.status ≠ JobStatus.STOPPED) (hnt2 : j.status ≠ JobStatus.FAILED)
    (cFR cFW : ConnectorsTable) (itemF itemFW : ConnectorItem) (vF : Int)
    (hFR : ddbLookup cFR (connectorKey req.tenant_context req.connector_id) = some itemF)
    (hFv : itemF.version = some vF)
    (hFW : ddbLookup cFW (connectorKey req.tenant_context req.connector_id) = some itemFW)
    (hFWv : itemFW.version = some vF) :
    (update_job_status req connTbl jobsTbl cFR cFW now).1 = Except.ok () ∧
    (ddbLookup (update_job_status req connTbl jobsTbl cFR cFW now).2.1
        (jobKey req.tenant_context req.job_id)).map JobItem.ttl =
      some (some (toString (ttlEpoch now))) ∧
    (ddbLookup (update_job_status req connTbl jobsTbl cFR cFW now).2.2
        (connectorKey req.tenant_context req.connector_id)).map ConnectorItem.status =
      some ConnectorStatus.AVAILABLE := by
  have hflip := update_connector_status_ok req.tenant_context req.connector_id
    ConnectorStatus.AVAILABLE now cFR cFW itemF itemFW vF hFR hFv hFW hFWv
  rcases hterm with h | h | h <;>
    simp [update_job_status, get_connector, hc, hj, hnt1, hnt2, h, hflip,
      ddbLookup_ddbPut_self]

theorem ujs_terminal_flip_missing (req : UpdateJobStatusRequest) (now : Nat)
    (hterm : req.status = JobStatus.STOPPED ∨ req.status = JobStatus.FAILED ∨
      req.status = JobStatus.SUCCEEDED)
    (connTbl : ConnectorsTable) (jobsTbl : JobsTable) (c : ConnectorItem) (j : JobItem)
    (hc : ddbLookup connTbl (connectorKey req.tenant_context req.connector_id) = some c)
    (hj : ddbLookup jobsTbl (jobKey req.tenant_context req.job_id) = some j)
    (hnt1 : j.status ≠ JobStatus.STOPPED) (hnt2 : j.status ≠ JobStatus.FAILED)
    (cBR cBW : ConnectorsTable)
    (hBR : ddbLookup cBR (connectorKey req.tenant_context req.connector_id) = none) :
    (update_job_status req connTbl jobsTbl cBR cBW now).1 = Except.ok () ∧
    (ddbLookup (update_job_status req connTbl jobsTbl cBR cBW now).2.1
        (jobKey req.tenant_context req.job_id)).map JobItem.ttl =
      some (some (toString (ttlEpoch now))) ∧
    (update_job_status req connTbl jobsTbl cBR cBW now).2.2 = cBW := by
  rcases hterm with h | h | h <;>
    simp [update_job_status, get_connector, update_connector_status, hc, hj, hnt1, hnt2,
      h, hBR, ddbLookup_ddbPut_self]

theorem ujs_terminal_flip_stale (req : UpdateJobStatusRequest) (now : Nat)
    (hterm : req.status = JobStatus.STOPPED ∨ req.status = JobStatus.FAILED ∨
      req.status = JobStatus.SUCCEEDED)
    (connTbl : ConnectorsTable) (jobsTbl : JobsTable) (c : ConnectorItem) (j : JobItem)
    (hc : ddbLookup connTbl (connectorKey req.tenant_context req.connector_id) = some c)
    (hj : ddbLookup jobsTbl (jobKey req.tenant_context req.job_id) = some j)
    (hnt1 : j.status ≠ JobStatus.STOPPED) (hnt2 : j.status ≠ JobStatus.FAILED)
    (cCR cCW : ConnectorsTable) (itemC itemCW : ConnectorItem) (vC wC : Int)
    (hCR : ddbLookup cCR (connectorKey req.tenant_context req.connector_id) = some itemC)
    (hCv : itemC.version = some vC)
    (hCW : ddbLookup cCW (connectorKey req.tenant_context req.connector_id) = some itemCW)
    (hCWv : itemCW.version = some wC) (hCne : wC ≠ vC) :
    isConflictResult (update_job_status req connTbl jobsTbl cCR cCW now).1 = true := by
  have hstale := update_connector_status_stale req.tenant_context req.connector_id
    ConnectorStatus.AVAILABLE now cCR cCW itemC itemCW vC wC hCR hCv hCW hCWv hCne
  cases hres : update_connector_status
      ⟨req.tenant_context, req.connector_id, ConnectorStatus.AVAILABLE⟩ cCR cCW now with
  | ok t =>
    rw [hres] at hstale
    simp [isConflictResult] at hstale
  | error e =>
    cases e with
    | resourceNotFound m =>
      rw [hres] at hstale
      simp [isConflictResult, DaoError.isConflict] at hstale
    | conflict m =>
      rcases hterm with h | h | h <;>
        simp [update_job_status, get_connector, hc, hj, hnt1, hnt2, h, hres,
          isConflictResult, DaoError.isConflict]
    | internalError m =>
      rw [hres] at hstale
      simp [isConflictResult, DaoError.isConflict] at hstale

/-- C4: for every `update_job_status` call with a new status in
{STOPPED, FAILED, SUCCEEDED} on a job that is not in the guarded terminal
set, the job row is written with `ttl = now + 7 days`, and the step-4 flip
of the owning connector behaves as claimed: when the connector row is still
there with an unchanged version the call succeeds and the connector is
stored as AVAILABLE; when the connector no longer exists at flip time the
flip is skipped and the call still succeeds with the connectors table
untouched; when the flip fails for another reason (a concurrent version
change at write time) the whole call fails. -/
theorem update_job_status_terminal_effects
    (req : UpdateJobStatusRequest) (now : Nat)
    (hterm : req.status = JobStatus.STOPPED ∨ req.status = JobStatus.FAILED ∨
      req.status = JobStatus.SUCCEEDED)
    (connTbl : ConnectorsTable) (jobsTbl : JobsTable) (c : ConnectorItem) (j : JobItem)
    (hc : ddbLookup connTbl (connectorKey req.tenant_context req.connector_id) = some c)
    (hj : ddbLookup jobsTbl (jobKey req.tenant_context req.job_id) = some j)
    (hnt1 : j.status ≠ JobStatus.STOPPED) (hnt2 : j.status ≠ JobStatus.FAILED)
    (cFR cFW : ConnectorsTable) (itemF itemFW : ConnectorItem) (vF : Int)
    (hFR : ddbLookup cFR (connectorKey req.tenant_context req.connector_id) = some itemF)
    (hFv : itemF.version = some vF)
    (hFW : ddbLookup cFW (connectorKey req.tenant_context req.connector_id) = some itemFW)
    (hFWv : itemFW.version = some vF)
    (cBR cBW : ConnectorsTable)
    (hBR : ddbLookup cBR (connectorKey req.tenant_context req.connector_id) = none)
    (cCR cCW : ConnectorsTable) (itemC itemCW : ConnectorItem) (vC wC : Int)
    (hCR : ddbLookup cCR (connectorKey req.tenant_context req.connector_id) = some itemC)
    (hCv : itemC.version = some vC)
    (hCW : ddbLookup cCW (connectorKey req.tenant_context req.connector_id) = some itemCW)
    (hCWv : itemCW.version = some wC) (hCne : wC ≠ vC) :
    ((update_job_status req connTbl jobsTbl cFR cFW now).1 = Except.ok () ∧
     (ddbLookup (update_job_status req connTbl jobsTbl cFR cFW now).2.1
         (jobKey req.tenant_context req.job_id)).map JobItem.ttl =
       some (some (toString (ttlEpoch now))) ∧
     (ddbLookup (update_job_status req connTbl jobsTbl cFR cFW now).2.2
         (connectorKey req.tenant_context req.connector_id)).map ConnectorItem.status =
       some ConnectorStatus.AVAILABLE) ∧
    ((update_job_status req connTbl jobsTbl cBR cBW now).1 = Except.ok () ∧
     (ddbLookup (update_job_status req connTbl jobsTbl cBR cBW now).2.1
         (jobKey req.tenant_context req.job_id)).map JobItem.ttl =
       some (some (toString (ttlEpoch now))) ∧
     (update_job_status req connTbl jobsTbl cBR cBW now).2.2 = cBW) ∧
    isConflictResult (update_job_status req connTbl jobsTbl cCR cCW now).1 = true :=
  ⟨ujs_terminal_flip_ok req now hterm connTbl jobsTbl c j hc hj hnt1 hnt2
      cFR cFW itemF itemFW vF hFR hFv hFW hFWv,
   ujs_terminal_flip_missing req now hterm connTbl jobsTbl c j hc hj hnt1 hnt2 cBR cBW hBR,
   ujs_terminal_flip_stale req now hterm connTbl jobsTbl c j hc hj hnt1 hnt2
      cCR cCW itemC itemCW vC wC hCR hCv hCW hCWv hCne⟩

/-- C4 (witness): a concrete SUCCEEDED transition of a RUNNING job, with
the three flip situations realised by three concrete connectors tables. -/
theorem update_job_status_terminal_effects_witness :
    (((update_job_status ⟨tcTest, "cc-1", "ccj-1", JobStatus.SUCCEEDED, none⟩
        connTblAvailable (jobsTblOf JobStatus.RUNNING) connTblAvailable connTblAvailable 1).1 =
        Except.ok () ∧
      (ddbLookup (update_job_status ⟨tcTest, "cc-1", "ccj-1", JobStatus.SUCCEEDED, none⟩
          connTblAvailable (jobsTblOf JobStatus.RUNNING) connTblAvailable connTblAvailable 1).2.1
          (jobKey tcTest "ccj-1")).map JobItem.ttl = some (some (toString (ttlEpoch 1))) ∧
      (ddbLookup (update_job_status ⟨tcTest, "cc-1", "ccj-1", JobStatus.SUCCEEDED, none⟩
          connTblAvailable (jobsTblOf JobStatus.RUNNING) connTblAvailable connTblAvailable 1).2.2
          (connectorKey tcTest "cc-1")).map ConnectorItem.status =
        some ConnectorStatus.AVAILABLE) ∧
     ((update_job_status ⟨tcTest, "cc-1", "ccj-1", JobStatus.SUCCEEDED, none⟩
        connTblAvailable (jobsTblOf JobStatus.RUNNING) [] [] 1).1 = Except.ok () ∧
      (ddbLookup (update_job_status ⟨tcTest, "cc-1", "ccj-1", JobStatus.SUCCEEDED, none⟩
          connTblAvailable (jobsTblOf JobStatus.RUNNING) [] [] 1).2.1
          (jobKey tcTest "ccj-1")).map JobItem.ttl = some (some (toString (ttlEpoch 1))) ∧
      (update_job_status ⟨tcTest, "cc-1", "ccj-1", JobStatus.SUCCEEDED, none⟩
        connTblAvailable (jobsTblOf JobStatus.RUNNING) [] [] 1).2.2 = []) ∧
     isConflictResult (update_job_status ⟨tcTest, "cc-1", "ccj-1", JobStatus.SUCCEEDED, none⟩
        connTblAvailable (jobsTblOf JobStatus.RUNNING) connTblAvailable
        [(connectorKey tcTest "cc-1", { connItemAvailable with version := some 5 })] 1).1 =
       true) :=
  update_job_status_terminal_effects
    ⟨tcTest, "cc-1", "ccj-1", JobStatus.SUCCEEDED, none⟩ 1
    (Or.inr (Or.inr rfl))
    connTblAvailable (jobsTblOf JobStatus.RUNNING) connItemAvailable
    (jobItemOf JobStatus.RUNNING) (by rfl) (by rfl) (by decide) (by decide)
    connTblAvailable connTblAvailable connItemAvailable connItemAvailable 1
    (by rfl) (by rfl) (by rfl) (by rfl)
    [] [] (by rfl)
    connTblAvailable [(connectorKey tcTest "cc-1", { connItemAvailable with version := some 5 })]
    connItemAvailable { connItemAvailable with version := some 5 } 1 5
    (by rfl) (by rfl) (by rfl) (by rfl) (by decide)

/-- C10: a successful `update_job_status` with a non-terminal new status
(STARTED, RUNNING or STOPPING) writes only the job row: the returned
connectors table is exactly the input one (no connector write, hence also
no version bump), and the new job item differs from the stored one only in
`status`, `updated_at`, and — only when the request carries one —
`batch_job_id`; `ttl` and every other field are preserved. -/
theorem update_job_status_nonterminal_frame
    (req : UpdateJobStatusRequest) (now : Nat)
    (hst : req.status = JobStatus.STARTED ∨ req.status = JobStatus.RUNNING ∨
      req.status = JobStatus.STOPPING)
    (connTbl : ConnectorsTable) (jobsTbl : JobsTable)
    (cFR cFW : ConnectorsTable) (c : ConnectorItem) (j : JobItem)
    (hc : ddbLookup connTbl (connectorKey req.tenant_context req.connector_id) = some c)
    (hj : ddbLookup jobsTbl (jobKey req.tenant_context req.job_id) = some j)
    (hnt1 : j.status ≠ JobStatus.STOPPED) (hnt2 : j.status ≠ JobStatus.FAILED) :
    update_job_status req connTbl jobsTbl cFR cFW now =
      (Except.ok (),
       ddbPut jobsTbl (jobKey req.tenant_context req.job_id)
         { j with
           status := req.status,
           updated_at := isoNow now,
           batch_job_id := (match req.batch_job_id with
             | none => j.batch_job_id
             | some b => some b) },
       cFW) := by
  rcases hst with h | h | h <;>
    rcases hb : req.batch_job_id with _ | b <;>
      simp [update_job_status, get_connector, hc, hj, hnt1, hnt2, h, hb]

/-- C10 (witness): a concrete RUNNING transition carrying a batch job id
updates exactly the job row fields status/updated_at/batch_job_id. -/
theorem update_job_status_nonterminal_frame_witness :
    update_job_status ⟨tcTest, "cc-1", "ccj-1", JobStatus.RUNNING, some "b-9"⟩
        connTblAvailable (jobsTblOf JobStatus.STARTED) connTblAvailable connTblAvailable 1 =
      (Except.ok (),
       ddbPut (jobsTblOf JobStatus.STARTED) (jobKey tcTest "ccj-1")
         { (jobItemOf JobStatus.STARTED) with
           status := JobStatus.RUNNING,
           updated_at := isoNow 1,
           batch_job_id := (match (some "b-9" : Option String) with
             | none => (jobItemOf JobStatus.STARTED).batch_job_id
             | some b => some b) },
       connTblAvailable) :=
  update_job_status_nonterminal_frame
    ⟨tcTest, "cc-1", "ccj-1", JobStatus.RUNNING, some "b-9"⟩ 1
    (Or.inr (Or.inl rfl))
    connTblAvailable (jobsTblOf JobStatus.STARTED) connTblAvailable connTblAvailable
    connItemAvailable (jobItemOf JobStatus.STARTED)
    (by rfl) (by rfl) (by decide) (by decide)

/-- C3 (counterexample): the claim says the lifecycle controller re-reads
the job's stored status before acting on a STARTED change-feed event and
submits no external work if the job has moved on, but `handle_job_start`
performs no such re-read: with the job concretely stored as RUNNING, a
STARTED event still produces a submit call to the batch collaborator. -/
theorem record_handler_started_no_reread_cex :
    BatchAction.submitJob "ccj-1" "ccj-1" ∈
      (record_handler (some ⟨some "ccj-1", some "cc-1",
          some "arn:aws:ccf:us-east-1:123456789012", some "STARTED", some "b-1", []⟩)
        connTblAvailable (jobsTblOf JobStatus.RUNNING) 1 "b-2").1 ∧
    (ddbLookup (jobsTblOf JobStatus.RUNNING) (jobKey tcTest "ccj-1")).map JobItem.status =
      some JobStatus.RUNNING := by
  constructor
  · decide
  · rfl

/-- C3 (amended): the controller does not consult the job's stored status
before submitting: for every STARTED event whose connector lookup succeeds,
`handle_job_start` emits exactly the register and submit calls to the
batch-compute collaborator, whatever the job's current stored status
(including RUNNING or terminal). -/
theorem handle_job_start_always_submits
    (ctx : JobStartContext) (conn : ConnectorsTable) (jobs : JobsTable)
    (now : Nat) (batchJobId : String) (c : ConnectorItem)
    (hc : get_connector ⟨ctx.tenant_context, ctx.connector_id⟩ conn = Except.ok c) :
    (handle_job_start ctx conn jobs now batchJobId).1 =
      [BatchAction.registerJobDefinition ctx.job_id c.container_properties.image_uri,
       BatchAction.submitJob ctx.job_id ctx.job_id] := by
  simp only [handle_job_start, hc]
  cases hres : update_job_status ⟨ctx.tenant_context, ctx.connector_id, ctx.job_id,
      JobStatus.RUNNING, some batchJobId⟩ conn jobs conn conn now with
  | mk fst snd =>
    obtain ⟨jobs2, conn2⟩ := snd
    cases fst <;> simp

/-- C3 (witness for the amended theorem): a concrete STARTED event on a job
stored as SUCCEEDED still registers and submits. -/
theorem handle_job_start_always_submits_witness :
    (handle_job_start ⟨"ccj-1", "cc-1", "arn:aws:ccf:us-east-1:123456789012", [], tcTest⟩
        connTblAvailable (jobsTblOf JobStatus.SUCCEEDED) 1 "b-2").1 =
      [BatchAction.registerJobDefinition "ccj-1" cpTest.image_uri,
       BatchAction.submitJob "ccj-1" "ccj-1"] :=
  handle_job_start_always_submits
    ⟨"ccj-1", "cc-1", "arn:aws:ccf:us-east-1:123456789012", [], tcTest⟩
    connTblAvailable (jobsTblOf JobStatus.SUCCEEDED) 1 "b-2" connItemAvailable (by rfl)

/-- C6: the completion handler maps a backend SUCCEEDED outcome to job
status SUCCEEDED, and a backend FAILED outcome to FAILED unless the job's
stored status read by the handler was STOPPING, in which case the job is
stored as STOPPED.  `js` names the mapped status; the final jobs table
stores exactly that status for the job. -/
theorem process_batch_event_outcome_mapping
    (bj bs cid arnR : String) (env : List (String × String))
    (conn : ConnectorsTable) (jobs : JobsTable) (now : Nat)
    (c : ConnectorItem) (j : JobItem) (v : Int) (js : JobStatus)
    (hbj : bj ≠ "")
    (hbs : bs = "SUCCEEDED" ∨ bs = "FAILED")
    (hID : lookupEnv env "CUSTOM_CONNECTOR_FRAMEWORK_CUSTOM_CONNECTOR_ID" = some cid)
    (hARN : lookupEnv env "CUSTOM_CONNECTOR_FRAMEWORK_CUSTOM_CONNECTOR_ARN_PREFIX" = some arnR)
    (hroot : (tenantFromArn arnR).arnRoot = arnR)
    (hc : ddbLookup conn (connectorKey (tenantFromArn arnR) cid) = some c)
    (hcv : c.version = some v)
    (hj : ddbLookup jobs (arnR, bj) = some j)
    (hnt1 : j.status ≠ JobStatus.STOPPED) (hnt2 : j.status ≠ JobStatus.FAILED)
    (hmap : js = (if bs = "SUCCEEDED" then JobStatus.SUCCEEDED
      else if j.status = JobStatus.STOPPING then JobStatus.STOPPED else JobStatus.FAILED)) :
    (process_batch_event (some bj) (some bs) env conn jobs now).1 = Except.ok () ∧
    (ddbLookup (process_batch_event (some bj) (some bs) env conn jobs now).2.1
        (arnR, bj)).map JobItem.status = some js := by
  have hjk : jobKey (tenantFromArn arnR) bj = (arnR, bj) := by
    simp [jobKey, hroot]
  have hj2 : ddbLookup jobs (jobKey (tenantFromArn arnR) bj) = some j := by
    rw [hjk]; exact hj
  have hflip1 := update_connector_status_ok (tenantFromArn arnR) cid
    ConnectorStatus.AVAILABLE now conn conn c c v hc hcv hc hcv
  have hterm : js = JobStatus.STOPPED ∨ js = JobStatus.FAILED ∨ js = JobStatus.SUCCEEDED := by
    rcases hbs with h | h <;> subst h <;> simp at hmap <;>
      first
        | exact Or.inr (Or.inr hmap)
        | (by_cases hstop : j.status = JobStatus.STOPPING
           · simp [hstop] at hmap; exact Or.inl hmap
           · simp [hstop] at hmap; exact Or.inr (Or.inl hmap))
  -- the updated connector row written by the in-call flip
  have hflip2 := update_connector_status_ok (tenantFromArn arnR) cid
    ConnectorStatus.AVAILABLE now
    (ddbPut conn (connectorKey (tenantFromArn arnR) cid)
      { c with status := ConnectorStatus.AVAILABLE, version := some (v + 1),
               updated_at := isoNow now })
    (ddbPut conn (connectorKey (tenantFromArn arnR) cid)
      { c with status := ConnectorStatus.AVAILABLE, version := some (v + 1),
               updated_at := isoNow now })
    { c with status := ConnectorStatus.AVAILABLE, version := some (v + 1),
             updated_at := isoNow now }
    { c with status := ConnectorStatus.AVAILABLE, version := some (v + 1),
             updated_at := isoNow now }
    (v + 1) (ddbLookup_ddbPut_self conn _ _) rfl (ddbLookup_ddbPut_self conn _ _) rfl
  rcases hbs with h | h <;> subst h
  · -- SUCCEEDED outcome
    have hjs : js = JobStatus.SUCCEEDED := by simpa using hmap
    subst hjs
    simp [process_batch_event, hID, hARN, hbj, hj, update_job_status, get_connector, hc,
      hj2, hjk, hnt1, hnt2, hflip1, hflip2, ddbLookup_ddbPut_self]
  · -- FAILED outcome
    by_cases hstop : j.status = JobStatus.STOPPING
    · have hjs : js = JobStatus.STOPPED := by simp [hstop] at hmap; exact hmap
      subst hjs
      simp [process_batch_event, hID, hARN, hbj, hj, hstop, update_job_status, get_connector,
        hc, hj2, hjk, hnt1, hnt2, hflip1, hflip2, ddbLookup_ddbPut_self]
    · have hjs : js = JobStatus.FAILED := by simp [hstop] at hmap; exact hmap
      subst hjs
      simp [process_batch_event, hID, hARN, hbj, hj, hstop, update_job_status, get_connector,
        hc, hj2, hjk, hnt1, hnt2, hflip1, hflip2, ddbLookup_ddbPut_self]

/-- C6 (witness): a concrete FAILED backend outcome on a job stored as
STOPPING is recorded as STOPPED. -/
theorem process_batch_event_outcome_mapping_witness :
    (process_batch_event (some "ccj-1") (some "FAILED")
        [("CUSTOM_CONNECTOR_FRAMEWORK_CUSTOM_CONNECTOR_ID", "cc-1"),
         ("CUSTOM_CONNECTOR_FRAMEWORK_CUSTOM_CONNECTOR_ARN_PREFIX",
          "arn:aws:ccf:us-east-1:123456789012")]
        connTblAvailable (jobsTblOf JobStatus.STOPPING) 1).1 = Except.ok () ∧
    (ddbLookup (process_batch_event (some "ccj-1") (some "FAILED")
        [("CUSTOM_CONNECTOR_FRAMEWORK_CUSTOM_CONNECTOR_ID", "cc-1"),
         ("CUSTOM_CONNECTOR_FRAMEWORK_CUSTOM_CONNECTOR_ARN_PREFIX",
          "arn:aws:ccf:us-east-1:123456789012")]
        connTblAvailable (jobsTblOf JobStatus.STOPPING) 1).2.1
        ("arn:aws:ccf:us-east-1:123456789012", "ccj-1")).map JobItem.status =
      some JobStatus.STOPPED :=
  process_batch_event_outcome_mapping "ccj-1" "FAILED" "cc-1"
    "arn:aws:ccf:us-east-1:123456789012"
    [("CUSTOM_CONNECTOR_FRAMEWORK_CUSTOM_CONNECTOR_ID", "cc-1"),
     ("CUSTOM_CONNECTOR_FRAMEWORK_CUSTOM_CONNECTOR_ARN_PREFIX",
      "arn:aws:ccf:us-east-1:123456789012")]
    connTblAvailable (jobsTblOf JobStatus.STOPPING) 1
    connItemAvailable (jobItemOf JobStatus.STOPPING) 1 JobStatus.STOPPED
    (by decide) (Or.inr rfl) (by rfl) (by rfl) (by rfl) (by rfl) (by rfl) (by rfl)
    (by decide) (by decide) (by decide)

/-- C5: `start_job` on a connector stored as IN_USE fails with Conflict and
leaves both the connectors table and the jobs table (the job ledger)
unchanged: the conflict is raised before any write. -/
theorem start_job_in_use_conflict
    (req : StartJobRequest) (connTbl : ConnectorsTable) (jobsTbl : JobsTable)
    (now : Nat) (newJobId : String) (c : ConnectorItem)
    (hc : ddbLookup connTbl (connectorKey req.tenant_context req.connector_id) = some c)
    (hstatus : c.status = ConnectorStatus.IN_USE) :
    isConflictResult (start_job req connTbl jobsTbl now newJobId).1 = true ∧
    (start_job req connTbl jobsTbl now newJobId).2.1 = connTbl ∧
    (start_job req connTbl jobsTbl now newJobId).2.2 = jobsTbl := by
  simp only [start_job, get_connector, hc, hstatus]
  simp [isConflictResult, DaoError.isConflict]

/-- C5 (witness): a concrete `start_job` against an IN_USE connector. -/
theorem start_job_in_use_conflict_witness :
    isConflictResult (start_job ⟨tcTest, "cc-1", []⟩ connTblInUse (jobsTblOf JobStatus.STOPPED)
        1 "ccj-2").1 = true ∧
    (start_job ⟨tcTest, "cc-1", []⟩ connTblInUse (jobsTblOf JobStatus.STOPPED)
        1 "ccj-2").2.1 = connTblInUse ∧
    (start_job ⟨tcTest, "cc-1", []⟩ connTblInUse (jobsTblOf JobStatus.STOPPED)
        1 "ccj-2").2.2 = jobsTblOf JobStatus.STOPPED :=
  start_job_in_use_conflict ⟨tcTest, "cc-1", []⟩ connTblInUse (jobsTblOf JobStatus.STOPPED)
    1 "ccj-2" connItemInUse (by rfl) (by rfl)

/-! Helper lemmas for the batching bounds. -/

theorem batchSize_dropLast_le (l : List Document) : batchSize l.dropLast ≤ batchSize l := by
  induction l with
  | nil => simp [batchSize]
  | cons d rest ih =>
    cases rest with
    | nil => simp [batchSize]
    | cons e tl =>
      simp only [List.dropLast_cons₂, batchSize, List.map_cons, List.sum_cons] at ih ⊢
      omega

theorem prepare_some_size_le (s3Bucket : Option String) (d : Document)
    (p : QBusinessDocument)
    (h : prepare_document_for_upload s3Bucket d = some p) :
    d.file.size ≤ PUT_MAX_SINGLE_SIZE := by
  by_cases hgt : d.file.size > PUT_MAX_SINGLE_SIZE
  · simp [prepare_document_for_upload, hgt] at h
  · omega

theorem batchPutGo_bounds (s3Bucket : Option String) (docs : List Document) :
    ∀ (batch : List Document) (acc : Nat),
      batch.length < PUT_MAX_DOCS →
      acc = batchSize batch →
      acc < PUT_MAX_TOTAL_SIZE →
      (∀ d ∈ batch, d.file.size ≤ PUT_MAX_SINGLE_SIZE) →
      ∀ b ∈ batchPutGo s3Bucket docs batch acc,
        b.length ≤ PUT_MAX_DOCS ∧
        (∀ d ∈ b, d.file.size ≤ PUT_MAX_SINGLE_SIZE) ∧
        batchSize b.dropLast < PUT_MAX_TOTAL_SIZE := by
  induction docs with
  | nil =>
    intro batch acc hlen hacc hcap hsizes b hb
    by_cases hemp : batch.isEmpty
    · simp [batchPutGo, hemp] at hb
    · simp [batchPutGo, hemp] at hb
      subst hb
      exact ⟨Nat.le_of_lt hlen, hsizes,
        lt_of_le_of_lt (batchSize_dropLast_le _) (hacc ▸ hcap)⟩
  | cons d rest ih =>
    intro batch acc hlen hacc hcap hsizes b hb
    cases hprep : prepare_document_for_upload s3Bucket d with
    | none =>
      rw [batchPutGo, hprep] at hb
      exact ih batch acc hlen hacc hcap hsizes b hb
    | some p =>
      have hdsize : d.file.size ≤ PUT_MAX_SINGLE_SIZE :=
        prepare_some_size_le s3Bucket d p hprep
      have hsizes2 : ∀ x ∈ batch ++ [d], x.file.size ≤ PUT_MAX_SINGLE_SIZE := by
        intro x hx
        rcases List.mem_append.mp hx with hx | hx
        · exact hsizes x hx
        · simp at hx; subst hx; exact hdsize
      have hacc2 : acc + d.file.size = batchSize (batch ++ [d]) := by
        simp [batchSize, hacc]
      rw [batchPutGo, hprep] at hb
      by_cases hcond : (batch ++ [d]).length = PUT_MAX_DOCS ∨
          acc + d.file.size ≥ PUT_MAX_TOTAL_SIZE
      · rw [if_pos hcond] at hb
        rcases List.mem_cons.mp hb with hb | hb
        · subst hb
          refine ⟨?_, hsizes2, ?_⟩
          · simp only [List.length_append, List.length_cons, List.length_nil]
            omega
          · rw [List.dropLast_concat]
            exact hacc ▸ hcap
        · exact ih [] 0 (by simp [PUT_MAX_DOCS]) (by simp [batchSize])
            (by simp [PUT_MAX_TOTAL_SIZE]) (by simp) b hb
      · rw [if_neg hcond] at hb
        push_neg at hcond
        obtain ⟨hlen2, hcap2⟩ := hcond
        refine ih (batch ++ [d]) (acc + d.file.size) ?_ hacc2 hcap2 hsizes2 b hb
        have : (batch ++ [d]).length = batch.length + 1 := by simp
        omega

/-- C7 (counterexample): the claim caps every dispatched batch at 10 MiB
cumulative payload, but the source appends a document before testing the
cap (`size_accumulator >= PUT_MAX_TOTAL_SIZE` after the append), so two
6 MiB documents are dispatched together in one batch of 12 MiB. -/
theorem batch_put_documents_cumulative_cap_cex :
    batch_put_documents (some "bucket") [docSixMiB1, docSixMiB2] =
      [[docSixMiB1, docSixMiB2]] ∧
    batchSize [docSixMiB1, docSixMiB2] > PUT_MAX_TOTAL_SIZE := by
  constructor
  · rfl
  · decide

/-- C7 (amended): every batch dispatched by `_batch_put_documents` contains
at most 10 documents, every document in any dispatched batch is at most
the 50 MiB single-document ceiling (an oversized document is skipped
entirely, never batched, split or retried), and each batch's cumulative
payload excluding its final document is strictly below 10 MiB — the batch
is dispatched as soon as the running total reaches 10 MiB, so the full
cumulative payload may exceed 10 MiB by up to the final document's size. -/
theorem batch_put_documents_bounds
    (s3Bucket : Option String) (docs : List Document) (b : List Document)
    (hb : b ∈ batch_put_documents s3Bucket docs) :
    b.length ≤ PUT_MAX_DOCS ∧
    (∀ d ∈ b, d.file.size ≤ PUT_MAX_SINGLE_SIZE) ∧
    batchSize b.dropLast < PUT_MAX_TOTAL_SIZE :=
  batchPutGo_bounds s3Bucket docs [] 0 (by simp [PUT_MAX_DOCS]) (by simp [batchSize])
    (by simp [PUT_MAX_TOTAL_SIZE]) (by simp) b hb

/-- C7 (witness for the amended theorem): the concrete over-10-MiB batch of
the counterexample still satisfies the amended bounds. -/
theorem batch_put_documents_bounds_witness :
    [docSixMiB1, docSixMiB2].length ≤ PUT_MAX_DOCS ∧
    (∀ d ∈ [docSixMiB1, docSixMiB2], d.file.size ≤ PUT_MAX_SINGLE_SIZE) ∧
    batchSize [docSixMiB1, docSixMiB2].dropLast < PUT_MAX_TOTAL_SIZE :=
  batch_put_documents_bounds (some "bucket") [docSixMiB1, docSixMiB2]
    [docSixMiB1, docSixMiB2] (by decide)

/-- C8: `Document.get_checksum` hashes the document id, the metadata dump
with the timestamp fields `last_updated_at` and `created_at` excluded, and
the file-content digest; hence two documents identical except for their
timestamp fields produce the same checksum, for any digest function. -/
theorem get_checksum_ignores_timestamps
    (sha256hex : String → String) (d1 d2 : Document)
    (hid : d1.id = d2.id)
    (hcontent : d1.file.content = d2.file.content)
    (htitle : d1.metadata.title = d2.metadata.title)
    (huri : d1.metadata.source_uri = d2.metadata.source_uri)
    (hattrs : d1.metadata.attributes = d2.metadata.attributes)
    (hacl : d1.metadata.access_control_list = d2.metadata.access_control_list) :
    get_checksum sha256hex d1 = get_checksum sha256hex d2 := by
  unfold get_checksum checksumData dumpMetadataForChecksum
  rw [hid, hcontent, htitle, huri, hattrs, hacl]

/-- C8 (witness): two concrete documents differing only in both timestamp
fields hash identically. -/
theorem get_checksum_ignores_timestamps_witness :
    get_checksum (fun s => s) docTimestampA = get_checksum (fun s => s) docTimestampB :=
  get_checksum_ignores_timestamps (fun s => s) docTimestampA docTimestampB
    rfl rfl rfl rfl rfl rfl

/-- C9: reconciliation candidate selection is idempotent — when every
local document's id is in the checksum ledger with a checksum equal to the
document's current checksum (an already-synced ledger, as after a
successful run over an unchanged document set), the selection loop of
`sync` produces zero upsert candidates. -/
theorem docs_to_sync_already_synced_empty
    (sha256hex : String → String) (current_docs : List Document)
    (ledger : List (String × String))
    (hsynced : ∀ d ∈ current_docs,
      ccfLookup ledger d.id = some (get_checksum sha256hex d)) :
    docs_to_sync sha256hex current_docs ledger = [] := by
  unfold docs_to_sync
  rw [List.filter_eq_nil_iff]
  intro d hd
  simp [hsynced d hd]

/-- C9 (witness): a concrete singleton document set against its own
freshly written ledger entry selects nothing. -/
theorem docs_to_sync_already_synced_empty_witness :
    docs_to_sync (fun s => s) [docTimestampA]
      [("doc-ts", get_checksum (fun s => s) docTimestampA)] = [] :=
  docs_to_sync_already_synced_empty (fun s => s) [docTimestampA]
    [("doc-ts", get_checksum (fun s => s) docTimestampA)]
    (by
      intro d hd
      simp only [List.mem_singleton] at hd
      subst hd
      rfl)
